import Mathlib

/-!
Verification of the Zenith chat-bot backend (`src/main.py`, `src/database.py`,
`src/balance_manager.py`, `src/middleware.py`, `src/admin_manager.py`,
`src/config.py`) against its natural-language specification.

The Python code is shallowly embedded: each handler or store operation becomes
an executable Lean function over explicit state; fallible Python code (`raise`)
becomes `Except`; monetary amounts (spec: "decimal amount") are modelled as `ℚ`.
-/

namespace Zenith

/-- The `UserState` enum of `src/database.py` (`main` / `admin` / `awaiting_input`). -/
inductive UserState where
  | MAIN
  | ADMIN
  | AWAITING_INPUT
deriving DecidableEq, Repr

/-- The stored string of each state (`UserState(str, Enum)` values in `src/database.py`). -/
def UserState.value : UserState → String
  | UserState.MAIN => "main"
  | UserState.ADMIN => "admin"
  | UserState.AWAITING_INPUT => "awaiting_input"

/-- The Python constructor call `UserState(result)`: returns the member whose value
matches, or raises `ValueError` (here: `none`) for any other string. -/
def UserState.ofString : String → Option UserState
  | "main" => some UserState.MAIN
  | "admin" => some UserState.ADMIN
  | "awaiting_input" => some UserState.AWAITING_INPUT
  | _ => none

/-- One row of the transactions ledger (spec §3 "Transaction"): user id, currency
bucket, signed amount, kind, free-text description. -/
structure Txn where
  user_id : Int
  balance_type : String
  amount : ℚ
  transaction_type : String
  description : String
deriving DecidableEq, Repr

/-- The persisted ledger state: balances keyed by (user id, bucket), defaulting to
zero (spec §3: "Created implicitly (defaults to zero) on first read/write"), plus
the append-only transaction list. -/
structure Store where
  balances : Int → String → ℚ
  transactions : List Txn

/-- Modelled from the spec: `Database.get_balance` is absent from `src/database.py`
(only its callers in `src/balance_manager.py` exist). Spec §3/§9: reading a balance
for a (user, bucket) pair returns the stored amount, zero when no row exists. -/
def Database.get_balance (s : Store) (user_id : Int) (balance_type : String) : ℚ :=
  s.balances user_id balance_type

/-- Modelled from the spec: `Database.update_balance` is absent from
`src/database.py` (only its callers in `src/balance_manager.py` exist). Spec §2/§3:
the store "exposes atomic debit/credit" and "every Balance mutation has exactly one
corresponding Transaction row". Like every method actually present on `Database`,
it acquires its own connection from the pool (its signature takes no connection
argument), so each call commits on its own: its effect is applied and durable when
the call returns. Returns the new balance, as `BalanceManager` expects. -/
def Database.update_balance (s : Store) (user_id : Int) (balance_type : String)
    (amount : ℚ) (transaction_type : String) (description : String) : Store × ℚ :=
  let new_balance := s.balances user_id balance_type + amount
  ({ balances := fun u b =>
       if u = user_id ∧ b = balance_type then new_balance else s.balances u b,
     transactions :=
       s.transactions ++ [⟨user_id, balance_type, amount, transaction_type, description⟩] },
   new_balance)

/-- Errors escaping a `BalanceManager` operation: `valueError` is a Python
`raise ValueError(msg)`; `storeFailure` is an injected failure of an underlying
store call (connection lost, query error). -/
inductive LedgerErr where
  | valueError (msg : String)
  | storeFailure
deriving DecidableEq, Repr

/-- `BalanceManager.withdraw_balance` (src/balance_manager.py lines 77-94): read the
current balance; if it is smaller than `amount`, `raise ValueError("Недостаточно
средств")` (re-raised by the except block); otherwise apply `update_balance` with
`-amount` and kind `withdraw`. Returns the outcome together with the store state
visible afterwards (on the error path nothing was written, so it is the input). -/
def BalanceManager.withdraw_balance (s : Store) (user_id : Int) (balance_type : String)
    (amount : ℚ) (description : String) : Except LedgerErr ℚ × Store :=
  let current_balance := Database.get_balance s user_id balance_type
  if current_balance < amount then
    (Except.error (LedgerErr.valueError "Недостаточно средств"), s)
  else
    let r := Database.update_balance s user_id balance_type (-amount) "withdraw" description
    (Except.ok r.2, r.1)

/-- Failure-injection point inside `transfer_balance`: no failure, the debit
`update_balance` call fails, or the credit `update_balance` call fails. -/
inductive FailPoint where
  | noFail
  | atDebit
  | atCredit
deriving DecidableEq, Repr

/-- `BalanceManager.transfer_balance` (src/balance_manager.py lines 96-128) with a
failure oracle. The source checks the sender's balance, then opens
`connection.transaction()` on a freshly acquired pool connection and calls
`update_balance` twice inside that block. Those two calls receive no connection
argument, so they run (and commit) on their own pool connections; the enclosing
transaction contains no statements of its own and its rollback undoes nothing.
Hence: a failure at the debit call leaves the store untouched, while a failure at
the credit call leaves the already-committed debit in place. On success the code
returns `True`. -/
def BalanceManager.transfer_balance_run (s : Store) (from_user_id to_user_id : Int)
    (balance_type : String) (amount : ℚ) (description : String) (fp : FailPoint) :
    Except LedgerErr Bool × Store :=
  let from_balance := Database.get_balance s from_user_id balance_type
  if from_balance < amount then
    (Except.error (LedgerErr.valueError "Недостаточно средств для перевода"), s)
  else
    match fp with
    | FailPoint.atDebit => (Except.error LedgerErr.storeFailure, s)
    | FailPoint.atCredit =>
      let r1 := Database.update_balance s from_user_id balance_type (-amount) "transfer"
        ("Перевод пользователю " ++ toString to_user_id ++ ": " ++ description)
      (Except.error LedgerErr.storeFailure, r1.1)
    | FailPoint.noFail =>
      let r1 := Database.update_balance s from_user_id balance_type (-amount) "transfer"
        ("Перевод пользователю " ++ toString to_user_id ++ ": " ++ description)
      let r2 := Database.update_balance r1.1 to_user_id balance_type amount "transfer"
        ("Перевод от пользователя " ++ toString from_user_id ++ ": " ++ description)
      (Except.ok true, r2.1)

/-- `BalanceManager.transfer_balance` on the failure-free path. -/
def BalanceManager.transfer_balance (s : Store) (from_user_id to_user_id : Int)
    (balance_type : String) (amount : ℚ) (description : String) :
    Except LedgerErr Bool × Store :=
  BalanceManager.transfer_balance_run s from_user_id to_user_id balance_type amount
    description FailPoint.noFail

/-- One ledger operation of a withdraw/transfer sequence, with the transfer's
failure-injection point. -/
inductive LedgerOp where
  | withdraw (user_id : Int) (balance_type : String) (amount : ℚ)
  | transfer (from_user_id to_user_id : Int) (balance_type : String) (amount : ℚ)
      (fp : FailPoint)
deriving DecidableEq, Repr

/-- The amount an operation carries. -/
def LedgerOp.amount : LedgerOp → ℚ
  | LedgerOp.withdraw _ _ a => a
  | LedgerOp.transfer _ _ _ a _ => a

/-- The store state visible after one `BalanceManager` operation (whether or not it
reported an error). -/
def applyOp (s : Store) : LedgerOp → Store
  | LedgerOp.withdraw u bt a => (BalanceManager.withdraw_balance s u bt a "Списание").2
  | LedgerOp.transfer f t bt a fp =>
    (BalanceManager.transfer_balance_run s f t bt a "Перевод" fp).2

/-- The store state after a whole sequence of withdraw/transfer operations. -/
def applyOps (s : Store) (ops : List LedgerOp) : Store :=
  ops.foldl applyOp s

/-- The per-user record `MessageManager` keeps in `self.user_messages`
(src/main.py lines 41-44, 60-63): the last rendered message id and its chat. -/
structure MsgRecord where
  message_id : Int
  chat_id : Int
deriving DecidableEq, Repr

/-- The in-memory state of `MessageManager`: the `user_messages` dict. -/
structure MMState where
  user_messages : Int → Option MsgRecord

/-- Behaviour of the transport (the Telegram Bot API) during one
`send_or_edit_message` call: whether `edit_message_text` raises, whether
`delete_message` raises, and the id of the message a successful `send_message`
returns. -/
structure Transport where
  editFails : Bool
  deleteFails : Bool
  sentMessageId : Int
deriving DecidableEq, Repr

/-- The transport calls a `MessageManager` method performs, in order. -/
inductive TEvent where
  | editAttempt (chat_id message_id : Int)
  | deleteAttempt (chat_id message_id : Int)
  | sendAttempt (chat_id : Int)
deriving DecidableEq, Repr

/-- `MessageManager.delete_previous_message` (src/main.py lines 66-78): if a record
exists for the user, attempt `delete_message` (the except block only logs, so a
delete failure changes nothing observable), and in the `finally` block pop the
record unconditionally. -/
def MessageManager.delete_previous_message (st : MMState) (user_id : Int) :
    MMState × List TEvent :=
  match st.user_messages user_id with
  | none => (st, [])
  | some r =>
    ({ user_messages := fun u => if u = user_id then none else st.user_messages u },
     [TEvent.deleteAttempt r.chat_id r.message_id])

/-- `MessageManager.send_or_edit_message` (src/main.py lines 20-64). If a record
with a truthy `message_id` exists, try to edit it in place; a successful edit
re-stores the same message id with the current chat id. If the edit raises, call
`delete_previous_message` and fall through to `send_message`, storing the sent
message's id. With no usable record, send directly. Returns the new state, the
ordered transport calls, and the returned message's id. -/
def MessageManager.send_or_edit_message (st : MMState) (tr : Transport)
    (chat_id user_id : Int) (text : String) : MMState × List TEvent × Int :=
  match st.user_messages user_id with
  | some r =>
    if r.message_id ≠ 0 then
      if tr.editFails then
        let d := MessageManager.delete_previous_message st user_id
        ({ user_messages := fun u =>
             if u = user_id then some ⟨tr.sentMessageId, chat_id⟩ else d.1.user_messages u },
         TEvent.editAttempt chat_id r.message_id :: d.2 ++ [TEvent.sendAttempt chat_id],
         tr.sentMessageId)
      else
        ({ user_messages := fun u =>
             if u = user_id then some ⟨r.message_id, chat_id⟩ else st.user_messages u },
         [TEvent.editAttempt chat_id r.message_id],
         r.message_id)
    else
      ({ user_messages := fun u =>
           if u = user_id then some ⟨tr.sentMessageId, chat_id⟩ else st.user_messages u },
       [TEvent.sendAttempt chat_id],
       tr.sentMessageId)
  | none =>
    ({ user_messages := fun u =>
         if u = user_id then some ⟨tr.sentMessageId, chat_id⟩ else st.user_messages u },
     [TEvent.sendAttempt chat_id],
     tr.sentMessageId)

/-- `MessageManager.clear_user_messages` (src/main.py lines 80-82). -/
def MessageManager.clear_user_messages (st : MMState) (user_id : Int) : MMState :=
  { user_messages := fun u => if u = user_id then none else st.user_messages u }

/-- The effects a `main.py` handler performs, in program order.
`deleteUserMessage` is the best-effort `message.delete()` of the user's own
command message; `persistState` is `database.set_user_state`; `render` is a
`message_manager.send_or_edit_message` call, carrying the exact text where it is
a fixed literal and a symbolic screen name where the text is assembled from
database contents; `transientNotice` is `callback_query.answer(text)` (a toast,
not a message); `answerEmpty` is the final bare `callback_query.answer()`;
`invokeHandler` is the middleware handing the event on with the resolved state. -/
inductive Action where
  | deleteUserMessage
  | persistState (user_id : Int) (state : UserState)
  | deletePrevious (user_id : Int)
  | render (user_id : Int) (payload : String)
  | transientNotice (text : String)
  | answerEmpty
  | invokeHandler (state : UserState)
deriving DecidableEq, Repr

/-- The persisted-plus-tracked world a handler acts on: conversation states and
balances in the store, render handles in `MessageManager`. -/
structure World where
  userStates : Int → UserState
  handles : Int → Option MsgRecord
  balances : Int → String → ℚ

/-- Executing one handler effect on the world. `rs` abstracts what a render leaves
as the user's handle (it depends on the transport, per
`MessageManager.send_or_edit_message`); notices, empty answers and the deletion of
the user's own inbound message touch no tracked state. -/
def execAction (rs : Int → Option MsgRecord → Option MsgRecord) (w : World) :
    Action → World
  | Action.persistState uid st =>
    { w with userStates := fun u => if u = uid then st else w.userStates u }
  | Action.deletePrevious uid =>
    { w with handles := fun u => if u = uid then none else w.handles u }
  | Action.render uid _ =>
    { w with handles := fun u => if u = uid then rs uid (w.handles uid) else w.handles u }
  | Action.deleteUserMessage => w
  | Action.transientNotice _ => w
  | Action.answerEmpty => w
  | Action.invokeHandler _ => w

/-- Executing a handler's effect list in order. -/
def execList (rs : Int → Option MsgRecord → Option MsgRecord) (w : World)
    (l : List Action) : World :=
  l.foldl (execAction rs) w

/-- The denial toast used by every admin-gated callback branch (src/main.py). -/
def denialNotice : String := "⛔ У вас нет прав доступа"

/-- The effects of `cmd_admin` (src/main.py lines 213-246): delete the user's
`/admin` message; non-admins get a denial rendered via `send_or_edit_message` and
the handler returns; admins get `set_user_state(ADMIN)` first and the admin-panel
render second. -/
def cmd_admin (user_id : Int) (is_admin : Bool) : List Action :=
  Action.deleteUserMessage ::
    (if is_admin then
      [Action.persistState user_id UserState.ADMIN,
       Action.render user_id "admin_panel_screen"]
    else
      [Action.render user_id "no_admin_access_message"])

/-- The effects of the callback dispatcher `handle_inline_buttons`
(src/main.py lines 366-586), by `callback_query.data`. Every admin-gated branch
first re-checks `admin_manager.is_admin`; on denial it answers with the toast
`denialNotice` and returns immediately (before the final bare `answer()`).
`admin_all_users` / `admin_stats` run the `AdminManager` helpers, which call
`delete_previous_message` before rendering; `admin_back_to_main` persists MAIN and
then renders the main menu; `admin_panel` persists ADMIN and then renders the
admin panel. Unknown data falls through to the final `answer()` alone. -/
def handle_inline_buttons (user_id : Int) (is_admin : Bool) (data : String) :
    List Action :=
  if data = "personal_cabinet" then
    [Action.render user_id "personal_cabinet_screen", Action.answerEmpty]
  else if data = "user_stats" then
    [Action.render user_id "user_stats_screen", Action.answerEmpty]
  else if data = "about_project" then
    [Action.render user_id "about_project_screen", Action.answerEmpty]
  else if data = "back_to_main" then
    [Action.render user_id "main_menu_screen", Action.answerEmpty]
  else if data = "back_to_cabinet" then
    [Action.render user_id "personal_cabinet_screen", Action.answerEmpty]
  else if data = "admin_all_users" then
    if !is_admin then [Action.transientNotice denialNotice]
    else [Action.deletePrevious user_id, Action.render user_id "all_users_screen",
          Action.answerEmpty]
  else if data = "admin_stats" then
    if !is_admin then [Action.transientNotice denialNotice]
    else [Action.deletePrevious user_id, Action.render user_id "admin_stats_screen",
          Action.answerEmpty]
  else if data = "admin_back_to_main" then
    if !is_admin then [Action.transientNotice denialNotice]
    else [Action.persistState user_id UserState.MAIN,
          Action.render user_id "main_menu_screen", Action.answerEmpty]
  else if data = "admin_back_to_main_menu" then
    if !is_admin then [Action.transientNotice denialNotice]
    else [Action.render user_id "admin_panel_screen", Action.answerEmpty]
  else if data = "admin_panel" then
    if !is_admin then [Action.transientNotice denialNotice]
    else [Action.persistState user_id UserState.ADMIN,
          Action.render user_id "admin_panel_screen", Action.answerEmpty]
  else
    [Action.answerEmpty]

/-- The admin-gated callback data values of `handle_inline_buttons`. -/
def gatedCallbacks : List String :=
  ["admin_all_users", "admin_stats", "admin_back_to_main",
   "admin_back_to_main_menu", "admin_panel"]

/-- The fixed guidance constant of `echo_message`'s non-MAIN branch
(src/main.py line 607). -/
def guidanceText : String := "ℹ️ Используйте доступные команды или кнопки"

/-- The response text `echo_message` (src/main.py lines 589-608) renders: an echo
of the input in state MAIN, the fixed guidance constant otherwise. -/
def echo_message_response (user_state : UserState) (text : String) : String :=
  if user_state = UserState.MAIN then "Вы сказали: " ++ text
  else guidanceText

/-- The effects of `echo_message`: delete the user's message (best effort), then
render the response; no state write occurs on either branch. -/
def echo_message (user_id : Int) (user_state : UserState) (text : String) :
    List Action :=
  [Action.deleteUserMessage, Action.render user_id (echo_message_response user_state text)]

/-- Outcome of the one `fetchval` the state read performs: whether the call (or
anything else inside the `try`) raises, and otherwise the fetched `state` column
(none when no `users` row matches). -/
structure DbRead where
  raises : Bool
  row : Option String
deriving DecidableEq, Repr

/-- `Database.get_user_state` (src/database.py lines 117-127): on any exception in
the `try` block return `UserState.MAIN`; a missing or empty result is falsy, giving
`UserState.MAIN`; otherwise `UserState(result)` — whose `ValueError` on an unknown
string is caught by the same except block, again giving `UserState.MAIN`. -/
def Database.get_user_state (r : DbRead) : UserState :=
  if r.raises then UserState.MAIN
  else
    match r.row with
    | none => UserState.MAIN
    | some s =>
      if s = "" then UserState.MAIN
      else
        match UserState.ofString s with
        | some st => st
        | none => UserState.MAIN

/-- `UserStateMiddleware.__call__` (src/middleware.py lines 11-27): resolve the
state via `Database.get_user_state` (whose own except block already absorbs store
failures, so the middleware's `except` fallback to MAIN is unreachable from the
store), store it in `data`, and always invoke the wrapped handler. -/
def UserStateMiddleware.call (r : DbRead) : List Action :=
  [Action.invokeHandler (Database.get_user_state r)]

/-- The tables whose `CREATE TABLE` DDL `Database.create_tables`
(src/database.py lines 59-80) executes: only `create_users_table`. -/
def Database.created_tables : List String := ["users"]

/-- The column names of the one table `create_tables` creates. -/
def Database.users_columns : List String :=
  ["id", "user_id", "first_name", "last_name", "username", "state",
   "created_at", "updated_at"]

/-- The methods the `Database` class defines (src/database.py lines 20-168). -/
def Database.methods : List String :=
  ["connect", "create_tables", "add_user", "get_user", "get_user_state",
   "set_user_state", "get_all_users", "get_users_count", "close"]

/-- The `Database` methods `src/balance_manager.py` invokes on `self.database`. -/
def BalanceManager.required_database_methods : List String :=
  ["get_balance", "update_balance", "get_transaction_history"]

/-- `AdminManager.is_admin` (src/admin_manager.py lines 13-16): membership of the
user's id in the startup-loaded admin id list. -/
def AdminManager.is_admin (admin_ids : List Int) (user_id : Int) : Bool :=
  admin_ids.contains user_id

/-! ## Shared concrete instances used by witnesses -/

/-- A render outcome function leaving handles as they were. -/
def rs0 : Int → Option MsgRecord → Option MsgRecord := fun _ h => h

/-- A concrete world: everyone in MAIN, no handles, zero balances. -/
def w0 : World :=
  { userStates := fun _ => UserState.MAIN, handles := fun _ => none,
    balances := fun _ _ => 0 }

/-! ## Helper lemmas -/

/-- The guidance constant is not an echo of any input text: its first character
differs from that of every `"Вы сказали: " ++ t`. -/
theorem guidance_ne_echo (t : String) : guidanceText ≠ "Вы сказали: " ++ t := by
  intro h
  have h2 := congrArg String.data h
  rw [String.data_append] at h2
  have h3 := congrArg List.head? h2
  rw [List.head?_append_of_ne_nil] at h3
  · revert h3
    decide
  · decide

/-! ## Claim theorems -/

/-- C6: the persisted store does NOT establish the full logical schema nor expose
the ledger operations. `Database.create_tables` executes only the `users` DDL, and
none of the three methods `balance_manager.py` invokes on the database
(`get_balance`, `update_balance`, `get_transaction_history`) is defined on the
`Database` class — every ledger call would raise `AttributeError`. -/
theorem database_ledger_surface_missing :
    Database.created_tables = ["users"]
    ∧ Database.created_tables.contains "balances" = false
    ∧ Database.created_tables.contains "transactions" = false
    ∧ (BalanceManager.required_database_methods.all
        (fun m => !(Database.methods.contains m))) = true
    ∧ Database.methods.contains "get_user_state" = true := by
  refine ⟨rfl, by decide, by decide, by decide, by decide⟩

/-- C10: `Database.get_user_state` is total and never propagates an error: it
returns MAIN when the read raises, when no row exists, and when the stored string
is not a valid state value; otherwise it returns the stored state. -/
theorem get_user_state_total_defaults (r : DbRead) :
    (r.raises = true → Database.get_user_state r = UserState.MAIN)
    ∧ (r.row = none → Database.get_user_state r = UserState.MAIN)
    ∧ (∀ s, r.row = some s → UserState.ofString s = none →
        Database.get_user_state r = UserState.MAIN)
    ∧ (∀ s st, r.raises = false → r.row = some s → UserState.ofString s = some st →
        Database.get_user_state r = st) := by
  refine ⟨?_, ?_, ?_, ?_⟩
  · intro h
    simp [Database.get_user_state, h]
  · intro h
    simp [Database.get_user_state, h]
  · intro s hs hof
    by_cases he : s = "" <;>
      simp [Database.get_user_state, hs, he, hof]
  · intro s st hr hs hof
    have hne : s ≠ "" := by
      intro he
      subst he
      simp [UserState.ofString] at hof
    simp [Database.get_user_state, hr, hs, hne, hof]

/-- C10 witness: a stored `"admin"` row read without error yields ADMIN. -/
theorem get_user_state_total_defaults_witness :
    (DbRead.mk false (some "admin")).raises = false
    ∧ Database.get_user_state ⟨false, some "admin"⟩ = UserState.ADMIN :=
  ⟨rfl, (get_user_state_total_defaults ⟨false, some "admin"⟩).2.2.2 "admin"
    UserState.ADMIN rfl rfl rfl⟩

/-- C7 counterexample: on a store read failure the middleware does NOT fail the
event nor render an apology — it invokes the handler with the default state MAIN
(the claim's "the event is not handled as if the read had succeeded with a default
value" is false at this input), and its effect list contains zero renders. -/
theorem store_failure_handled_with_default :
    UserStateMiddleware.call ⟨true, none⟩ = [Action.invokeHandler UserState.MAIN]
    ∧ (UserStateMiddleware.call ⟨true, none⟩).countP
        (fun a => match a with | Action.render _ _ => true | _ => false) = 0 := by
  exact ⟨rfl, rfl⟩

/-- C7 amended: whenever the store read raises, the failure is swallowed — the
event is dispatched to the handler with the default state MAIN, and no apology
message is rendered by the middleware or the state-read layer. -/
theorem store_failure_swallowed_defaults_main (r : DbRead) (h : r.raises = true) :
    UserStateMiddleware.call r = [Action.invokeHandler UserState.MAIN] := by
  simp [UserStateMiddleware.call, Database.get_user_state, h]

/-- C7 witness: a raising read (even over a stored `"admin"` row) dispatches MAIN. -/
theorem store_failure_swallowed_defaults_main_witness :
    (DbRead.mk true (some "admin")).raises = true
    ∧ UserStateMiddleware.call ⟨true, some "admin"⟩
      = [Action.invokeHandler UserState.MAIN] :=
  ⟨rfl, store_failure_swallowed_defaults_main ⟨true, some "admin"⟩ rfl⟩

/-- C8: every admin-gated callback invoked by a non-admin produces exactly one
transient denial toast and nothing else: conversation state, balances and the
render-tracker handle are all left unchanged (the world after execution is the
world before), for every render-outcome function. -/
theorem gated_callback_denial_frame (user_id : Int) (data : String)
    (rs : Int → Option MsgRecord → Option MsgRecord) (w : World)
    (hd : data ∈ gatedCallbacks) :
    handle_inline_buttons user_id false data = [Action.transientNotice denialNotice]
    ∧ execList rs w (handle_inline_buttons user_id false data) = w := by
  simp only [gatedCallbacks, List.mem_cons, List.mem_singleton, List.not_mem_nil,
    or_false] at hd
  rcases hd with rfl | rfl | rfl | rfl | rfl <;> exact ⟨rfl, rfl⟩

/-- C8 witness: a non-admin pressing the admin-panel button gets only the toast
and the world is untouched. -/
theorem gated_callback_denial_frame_witness :
    ("admin_panel" ∈ gatedCallbacks)
    ∧ handle_inline_buttons 5 false "admin_panel"
      = [Action.transientNotice denialNotice]
    ∧ execList rs0 w0 (handle_inline_buttons 5 false "admin_panel") = w0 :=
  ⟨by decide, (gated_callback_denial_frame 5 "admin_panel" rs0 w0 (by decide)).1,
   (gated_callback_denial_frame 5 "admin_panel" rs0 w0 (by decide)).2⟩

/-- C9: free text received while the sender is not in MAIN yields exactly one
render whose text is the fixed guidance constant (not an echo of the input), and
the sender's persisted state is unchanged by handling the message. -/
theorem non_main_free_text_fixed_guidance (user_id : Int) (user_state : UserState)
    (text : String) (rs : Int → Option MsgRecord → Option MsgRecord) (w : World)
    (h : user_state ≠ UserState.MAIN) :
    echo_message user_id user_state text
      = [Action.deleteUserMessage, Action.render user_id guidanceText]
    ∧ echo_message_response user_state text ≠ "Вы сказали: " ++ text
    ∧ (execList rs w (echo_message user_id user_state text)).userStates
      = w.userStates := by
  refine ⟨?_, ?_, rfl⟩
  · simp [echo_message, echo_message_response, h]
  · simp only [echo_message_response, h, if_neg]
    exact guidance_ne_echo text

/-- C9 witness: in state ADMIN the response to "привет" is the guidance constant
and the persisted states are untouched. -/
theorem non_main_free_text_fixed_guidance_witness :
    (UserState.ADMIN ≠ UserState.MAIN)
    ∧ echo_message 3 UserState.ADMIN "привет"
      = [Action.deleteUserMessage, Action.render 3 guidanceText]
    ∧ (execList rs0 w0 (echo_message 3 UserState.ADMIN "привет")).userStates
      = w0.userStates :=
  ⟨by decide, (non_main_free_text_fixed_guidance 3 UserState.ADMIN "привет" rs0 w0
      (by decide)).1,
    (non_main_free_text_fixed_guidance 3 UserState.ADMIN "привет" rs0 w0
      (by decide)).2.2⟩

/-- C3: when the requested amount exceeds the available balance, withdraw reports
the insufficient-funds `ValueError` and the transfer from that user likewise (at
every failure-injection point), and in both cases the store visible afterwards is
exactly the input store: no balance change, no new transaction rows. -/
theorem insufficient_funds_no_mutation (s : Store) (user_id : Int)
    (balance_type : String) (amount : ℚ) (description : String)
    (h : Database.get_balance s user_id balance_type < amount) :
    BalanceManager.withdraw_balance s user_id balance_type amount description
      = (Except.error (LedgerErr.valueError "Недостаточно средств"), s)
    ∧ ∀ to_user_id fp descr₂,
        BalanceManager.transfer_balance_run s user_id to_user_id balance_type amount
          descr₂ fp
        = (Except.error (LedgerErr.valueError "Недостаточно средств для перевода"), s) := by
  constructor
  · simp [BalanceManager.withdraw_balance, h]
  · intro to_user_id fp descr₂
    simp [BalanceManager.transfer_balance_run, h]

/-- A store holding balance 100 in every bucket, with an empty ledger. -/
def c3store : Store := { balances := fun _ _ => 100, transactions := [] }

/-- C3 witness: a user with balance 100 withdrawing 150 gets the
insufficient-funds error and an unchanged store, and so does a transfer of 150. -/
theorem insufficient_funds_no_mutation_witness :
    Database.get_balance c3store 1 "bonus" < 150
    ∧ BalanceManager.withdraw_balance c3store 1 "bonus" 150 "Списание"
      = (Except.error (LedgerErr.valueError "Недостаточно средств"), c3store)
    ∧ BalanceManager.transfer_balance_run c3store 1 2 "bonus" 150 "Перевод"
        FailPoint.noFail
      = (Except.error (LedgerErr.valueError "Недостаточно средств для перевода"),
         c3store) :=
  ⟨by norm_num [Database.get_balance, c3store],
   (insufficient_funds_no_mutation c3store 1 "bonus" 150 "Списание"
     (by norm_num [Database.get_balance, c3store])).1,
   (insufficient_funds_no_mutation c3store 1 "bonus" 150 "Списание"
     (by norm_num [Database.get_balance, c3store])).2 2 FailPoint.noFail "Перевод"⟩

/-- An all-zero store. -/
def c4store : Store := { balances := fun _ _ => 0, transactions := [] }

/-- C4 counterexample: with arbitrary (here: negative) amounts the non-negativity
invariant fails — the code never checks `amount > 0`, so `transfer` of −5 from a
zero account passes the `from_balance < amount` guard and credits −5 to the
receiver, driving the receiver's balance below zero. -/
theorem negative_transfer_breaks_nonneg :
    (applyOps c4store
      [LedgerOp.transfer 1 2 "bonus" (-5) FailPoint.noFail]).balances 2 "bonus" < 0 := by
  norm_num [applyOps, applyOp, BalanceManager.transfer_balance_run,
    Database.get_balance, Database.update_balance, c4store]

/-- Every balance of `update_balance`'s result is non-negative provided the input
balances are and the updated cell stays non-negative. -/
theorem update_balance_nonneg (s : Store) (user_id : Int) (balance_type : String)
    (amount : ℚ) (kind description : String)
    (hs : ∀ u b, 0 ≤ s.balances u b)
    (hk : 0 ≤ s.balances user_id balance_type + amount) :
    ∀ u b, 0 ≤ (Database.update_balance s user_id balance_type amount kind
      description).1.balances u b := by
  intro u b
  simp only [Database.update_balance]
  split_ifs with h
  · exact hk
  · exact hs u b

/-- One withdraw/transfer step preserves non-negative balances when its amount is
non-negative (covering every failure-injection point of the transfer). -/
theorem applyOp_nonneg (s : Store) (op : LedgerOp)
    (hs : ∀ u b, 0 ≤ s.balances u b) (ha : 0 ≤ op.amount) :
    ∀ u b, 0 ≤ (applyOp s op).balances u b := by
  cases op with
  | withdraw user_id balance_type amount =>
    simp only [LedgerOp.amount] at ha
    by_cases hlt : Database.get_balance s user_id balance_type < amount
    · simpa [applyOp, BalanceManager.withdraw_balance, hlt] using hs
    · have hle : amount ≤ s.balances user_id balance_type := le_of_not_lt hlt
      simp only [applyOp, BalanceManager.withdraw_balance, hlt, if_neg, not_false_iff]
      exact update_balance_nonneg s user_id balance_type (-amount) "withdraw"
        "Списание" hs (by linarith)
  | transfer from_user_id to_user_id balance_type amount fp =>
    simp only [LedgerOp.amount] at ha
    by_cases hlt : Database.get_balance s from_user_id balance_type < amount
    · simpa [applyOp, BalanceManager.transfer_balance_run, hlt] using hs
    · have hle : amount ≤ s.balances from_user_id balance_type := le_of_not_lt hlt
      have h1 : ∀ u b, 0 ≤ (Database.update_balance s from_user_id balance_type
          (-amount) "transfer"
          ("Перевод пользователю " ++ toString to_user_id ++ ": " ++ "Перевод")).1.balances u b :=
        update_balance_nonneg s from_user_id balance_type (-amount) "transfer" _ hs
          (by linarith)
      cases fp with
      | atDebit => simpa [applyOp, BalanceManager.transfer_balance_run, hlt] using hs
      | atCredit =>
        simpa [applyOp, BalanceManager.transfer_balance_run, hlt] using h1
      | noFail =>
        intro u b
        simp only [applyOp, BalanceManager.transfer_balance_run, hlt, if_neg,
          not_false_iff]
        exact update_balance_nonneg _ to_user_id balance_type amount "transfer" _ h1
          (by have := h1 to_user_id balance_type; linarith) u b

/-- C4 amended: restricted to non-negative amounts (the spec's stated precondition
is `amount > 0`), no sequence of withdraw and transfer operations — including
transfers failing at either store call — drives any balance below zero. -/
theorem nonneg_invariant_nonneg_amounts (ops : List LedgerOp) (s : Store)
    (hs : ∀ u b, 0 ≤ s.balances u b) (ha : ∀ op ∈ ops, 0 ≤ op.amount) :
    ∀ u b, 0 ≤ (applyOps s ops).balances u b := by
  induction ops generalizing s with
  | nil => simpa [applyOps] using hs
  | cons op rest ih =>
    have hstep := applyOp_nonneg s op hs (ha op (List.mem_cons_self op rest))
    have hrest : ∀ o ∈ rest, 0 ≤ o.amount := fun o ho => ha o (List.mem_cons_of_mem _ ho)
    simpa [applyOps, List.foldl_cons] using ih (applyOp s op) hstep hrest

/-- A store holding balance 7 everywhere. -/
def c4wstore : Store := { balances := fun _ _ => 7, transactions := [] }

/-- C4 amended witness: after a withdraw of 3 from balance 7 followed by a
transfer of 2, the inspected balance is still non-negative. -/
theorem nonneg_invariant_nonneg_amounts_witness :
    0 ≤ (applyOps c4wstore
      [LedgerOp.withdraw 1 "bonus" 3,
       LedgerOp.transfer 1 2 "bonus" 2 FailPoint.noFail]).balances 1 "bonus" :=
  nonneg_invariant_nonneg_amounts
    [LedgerOp.withdraw 1 "bonus" 3, LedgerOp.transfer 1 2 "bonus" 2 FailPoint.noFail]
    c4wstore (fun _ _ => by norm_num [c4wstore])
    (by
      intro op hop
      simp only [List.mem_cons, List.mem_singleton, List.not_mem_nil, or_false] at hop
      rcases hop with rfl | rfl <;> norm_num [LedgerOp.amount])
    1 "bonus"

/-- A store where user 1 holds 100 in bucket "bonus" and all else is zero. -/
def c1store : Store :=
  { balances := fun u b => if u = 1 ∧ b = "bonus" then 100 else 0,
    transactions := [] }

/-- C1 (code bug): at an input satisfying the claim's precondition
(balance(1,"bonus") = 100 ≥ 50), the failure-free transfer does debit 50, credit
50 and append exactly two rows — but when the credit-side `update_balance` call
fails, the already-committed debit remains observable: sender down 50, receiver
unchanged, exactly one transaction row. The `connection.transaction()` block in
the source encloses `update_balance` calls that acquire their own pool
connections, so its rollback cannot restore the pre-transfer state. -/
theorem transfer_partial_commit_on_credit_failure :
    (50 : ℚ) ≤ Database.get_balance c1store 1 "bonus"
    ∧ (BalanceManager.transfer_balance c1store 1 2 "bonus" 50 "Перевод").1
      = Except.ok true
    ∧ (BalanceManager.transfer_balance c1store 1 2 "bonus" 50 "Перевод").2.balances
        1 "bonus" = 50
    ∧ (BalanceManager.transfer_balance c1store 1 2 "bonus" 50 "Перевод").2.balances
        2 "bonus" = 50
    ∧ (BalanceManager.transfer_balance c1store 1 2 "bonus" 50
        "Перевод").2.transactions.length = 2
    ∧ (BalanceManager.transfer_balance_run c1store 1 2 "bonus" 50 "Перевод"
        FailPoint.atCredit).1 = Except.error LedgerErr.storeFailure
    ∧ (BalanceManager.transfer_balance_run c1store 1 2 "bonus" 50 "Перевод"
        FailPoint.atCredit).2.balances 1 "bonus" = 50
    ∧ (BalanceManager.transfer_balance_run c1store 1 2 "bonus" 50 "Перевод"
        FailPoint.atCredit).2.balances 2 "bonus" = 0
    ∧ (BalanceManager.transfer_balance_run c1store 1 2 "bonus" 50 "Перевод"
        FailPoint.atCredit).2.transactions.length = 1 := by
  refine ⟨?_, ?_, ?_, ?_, ?_, ?_, ?_, ?_, ?_⟩ <;>
    norm_num [BalanceManager.transfer_balance, BalanceManager.transfer_balance_run,
      Database.get_balance, Database.update_balance, c1store]

/-- C2: when the tracked message exists and the edit fails, the transport calls
are exactly edit-attempt, then delete-attempt of the old message, then send — the
deletion strictly precedes the send and no send-then-delete occurs; the tracked
handle afterwards is the newly sent message's id (which is also returned); and
the whole outcome is independent of whether the deletion itself failed. -/
theorem edit_failure_delete_then_send (st : MMState) (tr : Transport)
    (chat_id user_id : Int) (text : String) (r : MsgRecord)
    (hr : st.user_messages user_id = some r) (hmid : r.message_id ≠ 0)
    (hef : tr.editFails = true) :
    (MessageManager.send_or_edit_message st tr chat_id user_id text).2.1
      = [TEvent.editAttempt chat_id r.message_id,
         TEvent.deleteAttempt r.chat_id r.message_id,
         TEvent.sendAttempt chat_id]
    ∧ (MessageManager.send_or_edit_message st tr chat_id user_id
        text).1.user_messages user_id = some ⟨tr.sentMessageId, chat_id⟩
    ∧ (MessageManager.send_or_edit_message st tr chat_id user_id text).2.2
      = tr.sentMessageId
    ∧ MessageManager.send_or_edit_message st { tr with deleteFails := true }
        chat_id user_id text
      = MessageManager.send_or_edit_message st { tr with deleteFails := false }
        chat_id user_id text := by
  refine ⟨?_, ?_, ?_, rfl⟩ <;>
    simp [MessageManager.send_or_edit_message, MessageManager.delete_previous_message,
      hr, hmid, hef]

/-- A tracker with one record: user 7's last message is id 41 in chat 99. -/
def c2st : MMState :=
  { user_messages := fun u => if u = 7 then some ⟨41, 99⟩ else none }

/-- A transport whose edit fails and whose send returns message id 55. -/
def c2tr : Transport := { editFails := true, deleteFails := false, sentMessageId := 55 }

/-- C2 witness: for user 7 (old message 41 in chat 99) with a failing edit, the
call trace is edit, delete(41), send, and the new handle is message 55. -/
theorem edit_failure_delete_then_send_witness :
    c2st.user_messages 7 = some ⟨41, 99⟩
    ∧ (41 : Int) ≠ 0
    ∧ c2tr.editFails = true
    ∧ (MessageManager.send_or_edit_message c2st c2tr 99 7 "text").2.1
      = [TEvent.editAttempt 99 41, TEvent.deleteAttempt 99 41, TEvent.sendAttempt 99]
    ∧ (MessageManager.send_or_edit_message c2st c2tr 99 7 "text").1.user_messages 7
      = some ⟨55, 99⟩ :=
  ⟨by decide, by decide, rfl,
   (edit_failure_delete_then_send c2st c2tr 99 7 "text" ⟨41, 99⟩ (by decide)
     (by decide) rfl).1,
   (edit_failure_delete_then_send c2st c2tr 99 7 "text" ⟨41, 99⟩ (by decide)
     (by decide) rfl).2.1⟩

/-- C5: each state-changing handler persists the new state strictly before its
render: for every prefix of the handler's effect list that already contains the
resulting render, executing that prefix leaves the user's persisted state at the
new value — ADMIN for the `/admin` command and the `admin_panel` callback, MAIN
for the `admin_back_to_main` callback — for every starting world and every render
outcome. -/
theorem admin_entry_persists_before_render (user_id : Int)
    (rs : Int → Option MsgRecord → Option MsgRecord) (w : World) (k : Nat) :
    (Action.render user_id "admin_panel_screen" ∈ (cmd_admin user_id true).take k →
      Action.persistState user_id UserState.ADMIN ∈ (cmd_admin user_id true).take k)
    ∧ (Action.persistState user_id UserState.ADMIN ∈ (cmd_admin user_id true).take k →
      (execList rs w ((cmd_admin user_id true).take k)).userStates user_id
        = UserState.ADMIN)
    ∧ (Action.render user_id "admin_panel_screen"
        ∈ (handle_inline_buttons user_id true "admin_panel").take k →
      Action.persistState user_id UserState.ADMIN
        ∈ (handle_inline_buttons user_id true "admin_panel").take k)
    ∧ (Action.persistState user_id UserState.ADMIN
        ∈ (handle_inline_buttons user_id true "admin_panel").take k →
      (execList rs w ((handle_inline_buttons user_id true "admin_panel").take k)).userStates
        user_id = UserState.ADMIN)
    ∧ (Action.render user_id "main_menu_screen"
        ∈ (handle_inline_buttons user_id true "admin_back_to_main").take k →
      Action.persistState user_id UserState.MAIN
        ∈ (handle_inline_buttons user_id true "admin_back_to_main").take k)
    ∧ (Action.persistState user_id UserState.MAIN
        ∈ (handle_inline_buttons user_id true "admin_back_to_main").take k →
      (execList rs w ((handle_inline_buttons user_id true
        "admin_back_to_main").take k)).userStates user_id = UserState.MAIN) := by
  rcases k with _ | _ | _ | k <;>
    refine ⟨?_, ?_, ?_, ?_, ?_, ?_⟩ <;>
    simp [cmd_admin, handle_inline_buttons, execList, execAction,
      List.take_succ_cons]

/-- C5 witness: running the `/admin` trace for an admin, the persist precedes the
render and the persisted state read back is ADMIN — also at the crash prefix of
the `admin_panel` callback where the admin screen was never rendered. -/
theorem admin_entry_persists_before_render_witness :
    (Action.persistState 7 UserState.ADMIN ∈ (cmd_admin 7 true).take 3)
    ∧ (execList rs0 w0 ((cmd_admin 7 true).take 3)).userStates 7 = UserState.ADMIN
    ∧ (execList rs0 w0 ((handle_inline_buttons 7 true "admin_panel").take 1)).userStates 7
      = UserState.ADMIN :=
  ⟨by decide, (admin_entry_persists_before_render 7 rs0 w0 3).2.1 (by decide),
   (admin_entry_persists_before_render 7 rs0 w0 1).2.2.2.1 (by decide)⟩

end Zenith
